import Mathlib

/-!
Shallow embedding of the django-secrets-manager repository.

Source files embedded:
- `django_secrets/utils.py`        → namespace `Utils`
- `django_secrets/__init__.py`     → namespace `Init`
- `django_secrets/backends/aws_secrets_manager.py` → namespace `Backend`
- `aws_secrets/__init__.py`        → namespace `AwsSecrets`

Python values that can live in a Django settings module are modelled by
`PyVal` (strings and integers suffice for the claims; truthiness is the
Python rule restricted to those shapes).  Exceptions are modelled by
`PyError`; fallible code returns `Except PyError _`.  The external AWS
Secrets Manager store is an oracle `fetch : String → JSON` standing for
`json.loads(client.get_secret_value(SecretId=name)["SecretString"])`, and
stateful methods pass the `self._secrets` cache explicitly, returning the
new cache together with the number of store calls made.
-/

/-- Python value stored in a settings attribute or resolved by the helpers. -/
inductive PyVal where
  | str : String → PyVal
  | int : Int → PyVal
deriving DecidableEq

/-- Python truthiness for the modelled values: a string is truthy iff
non-empty, an integer iff non-zero. -/
def PyVal.truthy : PyVal → Bool
  | .str s => !(s == "")
  | .int n => !(n == 0)

/-- Truthiness of an optional value; Python `None` is falsy. -/
def truthyOpt : Option PyVal → Bool
  | some v => v.truthy
  | none => false

/-- Python exceptions raised by the embedded code. -/
inductive PyError where
  | keyError : String → PyError
  | typeError : PyError
  | attributeError : PyError
  | importError : PyError
  | settingKeyNotExists : List String → PyError
  | credentialsNotExists : PyError
deriving DecidableEq

/-- Domain-specific exception classes declared by the repository, as opposed
to the plain Python lookup errors (`KeyError`, `TypeError`, ...). -/
def PyError.isDomain : PyError → Bool
  | .settingKeyNotExists _ => true
  | .credentialsNotExists => true
  | _ => false

/-- Parsed JSON value, the result of `json.loads` on a secret payload. -/
inductive JSON where
  | null : JSON
  | bool : Bool → JSON
  | num : Int → JSON
  | str : String → JSON
  | arr : List JSON → JSON
  | obj : List (String × JSON) → JSON

/-- Association-list lookup (first binding wins), modelling Python `dict`
lookup for the caches, module attribute tables and JSON objects. -/
def alookup {α : Type} : List (String × α) → String → Option α
  | [], _ => none
  | (k', v) :: t, k => if k' = k then some v else alookup t k

/-- A Django settings module seen through `getattr(module, name, None)`. -/
abbrev SettingsModule := String → Option PyVal

/-- The process environment seen through `os.environ.get(name)`. -/
abbrev Env := String → Option String

/-- The `self._secrets` cache: secret name → parsed JSON payload. -/
abbrev Cache := List (String × JSON)

/-- Python `secrets[key]` with a string key: mapping lookup on a JSON object
(`KeyError` when absent), `TypeError` on any non-mapping value. -/
def pyIndex (j : JSON) (key : String) : Except PyError JSON :=
  match j with
  | .obj m =>
    match alookup m key with
    | some v => .ok v
    | none => .error (.keyError key)
  | _ => .error .typeError

/-- Auxiliary to `pySplit`: split a character list at every occurrence of
the separator, keeping empty segments (so the empty input gives one empty
segment, as in Python). -/
def splitCharAux (sep : Char) : List Char → List (List Char)
  | [] => [[]]
  | c :: rest =>
    match splitCharAux sep rest with
    | [] => [[]]
    | h :: t => if c = sep then [] :: h :: t else (c :: h) :: t

/-- Python `s.split(sep)` for a one-character separator, as used by the
`section.split(':')` calls: every occurrence of the separator splits, empty
segments are kept, and the empty string yields `[""]`. -/
def pySplit (s : String) (sep : Char) : List String :=
  (splitCharAux sep s.data).map String.mk

/-- The descent loop `for section in sections: secrets = secrets[section]`
shared by all three getSection variants. -/
def descend (secrets : JSON) (sections : List String) : Except PyError JSON :=
  match sections with
  | [] => .ok secrets
  | k :: rest =>
    match pyIndex secrets k with
    | .ok v => descend v rest
    | .error e => .error e

namespace Utils

/-- Settings loop of `django_secrets.utils.setting` (lines 27-30): return the
first attribute value that `is not None`, regardless of truthiness. -/
def resolve_settings (names : List String) (module : SettingsModule) : Option PyVal :=
  match names with
  | [] => none
  | n :: t =>
    match module n with
    | some v => some v
    | none => resolve_settings t module

/-- Environment loop of `django_secrets.utils.setting` (lines 32-36): return
the first environment value that `is not None`. -/
def resolve_env (names : List String) (env : Env) : Option String :=
  match names with
  | [] => none
  | n :: t =>
    match env n with
    | some v => some v
    | none => resolve_env t env

/-- Embeds `django_secrets.utils.setting` for list-shaped `names`: settings
attributes first, then (when `lookup_env`) the environment, then
`SettingKeyNotExists` (when `raise_exception`) or the default. -/
def setting (names : List String) (default : Option PyVal) (module : SettingsModule)
    (lookup_env : Bool) (raise_exception : Bool) (env : Env) :
    Except PyError (Option PyVal) :=
  match resolve_settings names module with
  | some v => .ok (some v)
  | none =>
    match (if lookup_env then resolve_env names env else none) with
    | some v => .ok (some (.str v))
    | none =>
      if raise_exception then .error (.settingKeyNotExists names) else .ok default

/-- Value of `utils.setting` with `raise_exception=False` and default `None`,
as used by the backend `get_client`. -/
def resolve (names : List String) (module : SettingsModule) (env : Env) : Option PyVal :=
  match resolve_settings names module with
  | some v => some v
  | none => (resolve_env names env).map PyVal.str

end Utils

namespace Init

/-- Candidate-name constants of `django_secrets.Secrets` (lines 74-81). -/
def secrets_name_names : List String :=
  ["AWS_SECRETS_MANAGER_SECRETS_NAME", "AWS_SECRETS_NAME"]

def secrets_section_names : List String :=
  ["AWS_SECRETS_MANAGER_SECRETS_SECTION", "AWS_SECRETS_SECTION"]

def profile_names : List String :=
  ["AWS_SECRETS_MANAGER_PROFILE", "AWS_PROFILE"]

def access_key_names : List String :=
  ["AWS_SECRETS_MANAGER_ACCESS_KEY_ID", "AWS_ACCESS_KEY_ID"]

def secret_key_names : List String :=
  ["AWS_SECRETS_MANAGER_SECRET_ACCESS_KEY", "AWS_SECRET_ACCESS_KEY"]

def region_name_names : List String :=
  ["AWS_SECRETS_MANAGER_REGION_NAME", "AWS_REGION_NAME"]

/-- Settings loop of the legacy `django_secrets.setting` (lines 53-56):
`if value: return value`, so falsy attribute values are skipped. -/
def resolve_settings (names : List String) (module : SettingsModule) : Option PyVal :=
  match names with
  | [] => none
  | n :: t =>
    match module n with
    | some v => if v.truthy then some v else resolve_settings t module
    | none => resolve_settings t module

/-- Environment loop of the legacy `django_secrets.setting` (lines 58-62):
`if value: return value`, so an empty environment string is skipped. -/
def resolve_env (names : List String) (env : Env) : Option String :=
  match names with
  | [] => none
  | n :: t =>
    match env n with
    | some v => if !(v == "") then some v else resolve_env t env
    | none => resolve_env t env

/-- Embeds the legacy `django_secrets.setting` (lines 44-67), which uses
truthiness rather than an `is not None` check. -/
def setting (names : List String) (default : Option PyVal) (module : SettingsModule)
    (lookup_env : Bool) (raise_exception : Bool) (env : Env) :
    Except PyError (Option PyVal) :=
  match resolve_settings names module with
  | some v => .ok (some v)
  | none =>
    match (if lookup_env then resolve_env names env else none) with
    | some v => .ok (some (.str v))
    | none =>
      if raise_exception then .error (.settingKeyNotExists names) else .ok default

/-- Value of the legacy `setting` with its defaults (`default=None`,
`lookup_env=True`, `raise_exception=False`), as used by `get_client`. -/
def resolve (names : List String) (module : SettingsModule) (env : Env) : Option PyVal :=
  match resolve_settings names module with
  | some v => some v
  | none => (resolve_env names env).map PyVal.str

/-- Credentials dictionary passed to `boto3.session.Session(**credentials)`. -/
structure Credentials where
  aws_access_key_id : Option PyVal
  aws_secret_access_key : Option PyVal
  profile_name : Option PyVal
  region_name : Option PyVal
deriving DecidableEq

/-- Embeds `django_secrets.Secrets.get_client` (lines 90-106): resolve the
four boto settings, prefer an access-key/secret-key pair, fall back to a
profile, and raise `CredentialsNotExists` when neither is available.  The
session/client construction itself is the external boto3 collaborator, so
the function returns the credentials dictionary that would be passed to it. -/
def get_client (module : SettingsModule) (env : Env) : Except PyError Credentials :=
  let profile := resolve profile_names module env
  let access_key := resolve access_key_names module env
  let secret_key := resolve secret_key_names module env
  let region_name := resolve region_name_names module env
  if truthyOpt access_key && truthyOpt secret_key then
    .ok ⟨access_key, secret_key, none, region_name⟩
  else if truthyOpt profile then
    .ok ⟨none, none, profile, region_name⟩
  else
    .error .credentialsNotExists

/-- Embeds `django_secrets.Secrets.get_secrets_section` (lines 108-124):
on a cache miss build the client and fetch/parse/store the payload, then
always split `sections_string` on `:` and index through the payload.
Returns the new cache, the number of store calls made, and the result. -/
def get_secrets_section (fetch : String → JSON) (module : SettingsModule) (env : Env)
    (st : Cache) (secrets_name : String) (sections_string : String) :
    Cache × Nat × Except PyError JSON :=
  match alookup st secrets_name with
  | some secrets => (st, 0, descend secrets (pySplit sections_string ':'))
  | none =>
    match get_client module env with
    | .error e => (st, 0, .error e)
    | .ok _ =>
      let secrets := fetch secrets_name
      ((secrets_name, secrets) :: st, 1, descend secrets (pySplit sections_string ':'))

/-- Attribute table of a Python module, as mutated by `setattr`. -/
abbrev ModuleAttrs := List (String × PyVal)

/-- Python `hasattr(mod, name)` on the modelled attribute table. -/
def hasattr (mod : ModuleAttrs) (name : String) : Bool :=
  (alookup mod name).isSome

/-- Python `setattr(mod, name, v)`: the new binding shadows any older one. -/
def setattr (mod : ModuleAttrs) (name : String) (v : PyVal) : ModuleAttrs :=
  (name, v) :: mod

/-- Embeds `django_secrets.Secrets.__init__` (lines 83-88): resolve the
module named by the `DJANGO_SETTINGS_MODULE` environment variable, inject
`SECRET_KEY = 'temp_secret_key'` when the module lacks that attribute, and
start with an empty `self._secrets` cache.  `modules` is the import system
(`importlib.import_module`); the result is the updated import system and
the fresh cache.  `os.environ.get` returning `None` makes
`import_module(None)` raise a `TypeError`; an unknown module name raises
`ModuleNotFoundError` (an `ImportError`). -/
def Secrets_init (env : Env) (modules : String → Option ModuleAttrs) :
    Except PyError ((String → Option ModuleAttrs) × Cache) :=
  match env "DJANGO_SETTINGS_MODULE" with
  | none => .error .typeError
  | some name =>
    match modules name with
    | none => .error .importError
    | some mod =>
      let mod' :=
        if hasattr mod "SECRET_KEY" then mod
        else setattr mod "SECRET_KEY" (.str "temp_secret_key")
      .ok ((fun n => if n = name then some mod' else modules n), [])

end Init

namespace Backend

/-- Candidate-name constants of `AWSSecretsManagerSecrets` (lines 51-64). -/
def secret_name_names : List String :=
  ["AWS_SECRETS_MANAGER_SECRET_NAME", "AWS_SECRET_NAME",
   "AWS_SECRETS_MANAGER_SECRETS_NAME", "AWS_SECRETS_NAME"]

def secret_section_names : List String :=
  ["AWS_SECRETS_MANAGER_SECRET_SECTION", "AWS_SECRET_SECTION",
   "AWS_SECRETS_MANAGER_SECRETS_SECTION", "AWS_SECRETS_SECTION"]

def profile_names : List String :=
  ["AWS_SECRETS_MANAGER_PROFILE", "AWS_PROFILE"]

def access_key_names : List String :=
  ["AWS_SECRETS_MANAGER_ACCESS_KEY_ID", "AWS_ACCESS_KEY_ID"]

def secret_key_names : List String :=
  ["AWS_SECRETS_MANAGER_SECRET_ACCESS_KEY", "AWS_SECRET_ACCESS_KEY"]

def region_name_names : List String :=
  ["AWS_SECRETS_MANAGER_REGION_NAME", "AWS_REGION_NAME"]

/-- The boto3 credential-resolution chain: given the credentials dictionary
built by `get_client`, reports whether `session.get_credentials()` finds
usable credentials.  External collaborator, modelled as an oracle. -/
abbrev BotoChain := Init.Credentials → Bool

/-- Embeds `AWSSecretsManagerSecrets.get_client` (lines 80-97): resolve the
four boto settings with `utils.setting`, build the credentials dictionary
(access-key pair preferred, else profile, else only a region), then raise
`CredentialsNotExists` when `session.get_credentials()` is `None`. -/
def get_client (boto : BotoChain) (module : SettingsModule) (env : Env) :
    Except PyError Init.Credentials :=
  let profile := Utils.resolve profile_names module env
  let access_key := Utils.resolve access_key_names module env
  let secret_key := Utils.resolve secret_key_names module env
  let region_name := Utils.resolve region_name_names module env
  let credentials : Init.Credentials :=
    if truthyOpt access_key && truthyOpt secret_key then
      ⟨access_key, secret_key, none, region_name⟩
    else if truthyOpt profile then
      ⟨none, none, profile, region_name⟩
    else
      ⟨none, none, none, region_name⟩
  if boto credentials then .ok credentials else .error .credentialsNotExists

/-- Narrowing step of `get_secret_section` (lines 133-138): `if not section:
return secrets` (both `None` and the empty string are falsy), otherwise
split on `:` and index through the payload. -/
def narrow (secrets : JSON) (sect : Option String) : Except PyError JSON :=
  match sect with
  | none => .ok secrets
  | some s => if s == "" then .ok secrets else descend secrets (pySplit s ':')

/-- Embeds `AWSSecretsManagerSecrets.get_secret_section` (lines 99-138) with
an explicitly supplied settings module (the `initial_settings_module` path;
the caller-frame inspection path is the same code with a different module):
fetch/parse/store the payload on a cache miss, then narrow by `section`.
Returns the new cache, the number of store calls made, and the result. -/
def get_secret_section (fetch : String → JSON) (boto : BotoChain)
    (module : SettingsModule) (env : Env) (st : Cache) (secret_name : String)
    (sect : Option String) : Cache × Nat × Except PyError JSON :=
  match alookup st secret_name with
  | some secrets => (st, 0, narrow secrets sect)
  | none =>
    match get_client boto module env with
    | .error e => (st, 0, .error e)
    | .ok _ =>
      let secrets := fetch secret_name
      ((secret_name, secrets) :: st, 1, narrow secrets sect)

/-- Python `secrets.get(key, default)` on the section returned by
`_get_section`, embedding line 153: a mapping returns the stored value or
the default; a non-mapping has no `get` attribute. -/
def get (sect : JSON) (key : String) (default : JSON) : Except PyError JSON :=
  match sect with
  | .obj m =>
    match alookup m key with
    | some v => .ok v
    | none => .ok default
  | _ => .error .attributeError

/-- Python `secrets[item]` on the section returned by `_get_section`,
embedding line 157. -/
def getitem (sect : JSON) (key : String) : Except PyError JSON :=
  pyIndex sect key

end Backend

namespace AwsSecrets

/-- Narrowing step of `aws_secrets.Secrets.load_secrets` (lines 125-129):
`sections = self.secrets_section.split(':') if self.secrets_section else []`
followed by the descent loop. -/
def load_secrets_narrow (secrets_obj : JSON) (secrets_section : Option String) :
    Except PyError JSON :=
  let sections :=
    match secrets_section with
    | some s => if !(s == "") then pySplit s ':' else []
    | none => []
  descend secrets_obj sections

end AwsSecrets

-- Sanity examples for the resolver model (mirrors tests/test_utils.py).
example :
    Utils.setting ["A", "B"] none (fun n => if n = "B" then some (.str "v") else none)
      true false (fun _ => none) = .ok (some (.str "v")) := by rfl

example :
    Utils.setting ["A"] (some (.str "d")) (fun _ => none) true false (fun _ => none)
      = .ok (some (.str "d")) := by rfl

example :
    Utils.setting ["A"] none (fun _ => none) true true (fun _ => none)
      = .error (.settingKeyNotExists ["A"]) := by rfl

/-! Helper lemmas about the resolver loops. -/

theorem Utils.resolve_settings_skip (names1 rest : List String)
    (module : SettingsModule) (h1 : ∀ n ∈ names1, module n = none) :
    Utils.resolve_settings (names1 ++ rest) module
      = Utils.resolve_settings rest module := by
  induction names1 with
  | nil => rfl
  | cons n t ih =>
    have hn : module n = none := h1 n (by simp)
    rw [List.cons_append]
    simp only [Utils.resolve_settings, hn]
    exact ih (fun m hm => h1 m (by simp [hm]))

theorem Utils.resolve_settings_none (names : List String)
    (module : SettingsModule) (h1 : ∀ n ∈ names, module n = none) :
    Utils.resolve_settings names module = none := by
  induction names with
  | nil => rfl
  | cons n t ih =>
    have hn : module n = none := h1 n (by simp)
    simp only [Utils.resolve_settings, hn]
    exact ih (fun m hm => h1 m (by simp [hm]))

theorem Utils.resolve_env_none (names : List String)
    (env : Env) (h1 : ∀ n ∈ names, env n = none) :
    Utils.resolve_env names env = none := by
  induction names with
  | nil => rfl
  | cons n t ih =>
    have hn : env n = none := h1 n (by simp)
    simp only [Utils.resolve_env, hn]
    exact ih (fun m hm => h1 m (by simp [hm]))

theorem Init.resolve_settings_skip_legacy (names1 rest : List String)
    (module : SettingsModule) (h1 : ∀ n ∈ names1, truthyOpt (module n) = false) :
    Init.resolve_settings (names1 ++ rest) module
      = Init.resolve_settings rest module := by
  induction names1 with
  | nil => rfl
  | cons n t ih =>
    have hn := h1 n (by simp)
    rw [List.cons_append]
    cases hm : module n with
    | none =>
      simp only [Init.resolve_settings, hm]
      exact ih (fun m hm' => h1 m (by simp [hm']))
    | some v =>
      rw [hm] at hn
      simp only [truthyOpt] at hn
      simp only [Init.resolve_settings, hm, hn, Bool.false_eq_true, if_false]
      exact ih (fun m hm' => h1 m (by simp [hm']))

theorem Init.resolve_settings_none_legacy (names : List String)
    (module : SettingsModule) (h1 : ∀ n ∈ names, module n = none) :
    Init.resolve_settings names module = none := by
  induction names with
  | nil => rfl
  | cons n t ih =>
    have hn : module n = none := h1 n (by simp)
    simp only [Init.resolve_settings, hn]
    exact ih (fun m hm => h1 m (by simp [hm]))

theorem Init.resolve_env_none_legacy (names : List String)
    (env : Env) (h1 : ∀ n ∈ names, env n = none) :
    Init.resolve_env names env = none := by
  induction names with
  | nil => rfl
  | cons n t ih =>
    have hn : env n = none := h1 n (by simp)
    simp only [Init.resolve_env, hn]
    exact ih (fun m hm => h1 m (by simp [hm]))

/-- C5: if the configuration source has a truthy value for the Nth candidate
name and every earlier name is absent from the source, both resolver
variants (`utils.setting` and the legacy `django_secrets.setting`) return
that source value for every environment, every default and every
`lookup_env` / `raise_exception` flag: the environment is only consulted
after all candidate names have been tried against the source. -/
theorem claim_C5_source_wins_over_env (names1 names2 : List String) (name : String)
    (module : SettingsModule) (v : PyVal)
    (h1 : ∀ n ∈ names1, module n = none) (h2 : module name = some v)
    (h3 : v.truthy = true) :
    ∀ (env : Env) (default : Option PyVal) (le re : Bool),
      Utils.setting (names1 ++ name :: names2) default module le re env
        = .ok (some v) ∧
      Init.setting (names1 ++ name :: names2) default module le re env
        = .ok (some v) := by
  intro env default le re
  have hs : Utils.resolve_settings (names1 ++ name :: names2) module = some v := by
    rw [Utils.resolve_settings_skip names1 _ module h1]
    simp [Utils.resolve_settings, h2]
  have h1' : ∀ n ∈ names1, truthyOpt (module n) = false := by
    intro n hn
    rw [h1 n hn]
    rfl
  have hs' : Init.resolve_settings (names1 ++ name :: names2) module = some v := by
    rw [Init.resolve_settings_skip_legacy names1 _ module h1']
    simp [Init.resolve_settings, h2, h3]
  exact ⟨by simp [Utils.setting, hs], by simp [Init.setting, hs']⟩

/-- Witness for C5: the source value of the second candidate name is
returned even though the environment maps every name to a different
value. -/
theorem claim_C5_witness :
    Utils.setting ["AWS_SECRETS_MANAGER_SECRET_NAME", "AWS_SECRET_NAME"] none
      (fun n => if n = "AWS_SECRET_NAME" then some (.str "myapp-secret") else none)
      true false (fun _ => some "env-noise") = .ok (some (.str "myapp-secret")) ∧
    Init.setting ["AWS_SECRETS_MANAGER_SECRET_NAME", "AWS_SECRET_NAME"] none
      (fun n => if n = "AWS_SECRET_NAME" then some (.str "myapp-secret") else none)
      true false (fun _ => some "env-noise") = .ok (some (.str "myapp-secret")) :=
  claim_C5_source_wins_over_env ["AWS_SECRETS_MANAGER_SECRET_NAME"] [] "AWS_SECRET_NAME"
    (fun n => if n = "AWS_SECRET_NAME" then some (.str "myapp-secret") else none)
    (.str "myapp-secret") (by intro n hn; simp at hn; subst hn; decide)
    (by decide) (by decide) (fun _ => some "env-noise") none true false

/-- C6: when every candidate name is absent from both the configuration
source and the environment, both resolver variants return the supplied
default, and with `raise_exception=True` (and no default) raise
`SettingKeyNotExists` carrying the original candidate-name list. -/
theorem claim_C6_default_and_raise (names : List String) (module : SettingsModule)
    (env : Env) (d : PyVal)
    (h : ∀ n ∈ names, module n = none ∧ env n = none) :
    Utils.setting names (some d) module true false env = .ok (some d) ∧
    Utils.setting names none module true true env
      = .error (.settingKeyNotExists names) ∧
    Init.setting names (some d) module true false env = .ok (some d) ∧
    Init.setting names none module true true env
      = .error (.settingKeyNotExists names) := by
  have hs : Utils.resolve_settings names module = none :=
    Utils.resolve_settings_none names module (fun n hn => (h n hn).1)
  have he : Utils.resolve_env names env = none :=
    Utils.resolve_env_none names env (fun n hn => (h n hn).2)
  have hs' : Init.resolve_settings names module = none :=
    Init.resolve_settings_none_legacy names module (fun n hn => (h n hn).1)
  have he' : Init.resolve_env names env = none :=
    Init.resolve_env_none_legacy names env (fun n hn => (h n hn).2)
  refine ⟨?_, ?_, ?_, ?_⟩
  · simp [Utils.setting, hs, he]
  · simp [Utils.setting, hs, he]
  · simp [Init.setting, hs', he']
  · simp [Init.setting, hs', he']

/-- Witness for C6 at a concrete two-name list, an empty source and an
empty environment. -/
theorem claim_C6_witness :
    Utils.setting ["N1", "N2"] (some (.str "X")) (fun _ => none) true false (fun _ => none)
      = .ok (some (.str "X")) ∧
    Utils.setting ["N1", "N2"] none (fun _ => none) true true (fun _ => none)
      = .error (.settingKeyNotExists ["N1", "N2"]) ∧
    Init.setting ["N1", "N2"] (some (.str "X")) (fun _ => none) true false (fun _ => none)
      = .ok (some (.str "X")) ∧
    Init.setting ["N1", "N2"] none (fun _ => none) true true (fun _ => none)
      = .error (.settingKeyNotExists ["N1", "N2"]) :=
  claim_C6_default_and_raise ["N1", "N2"] (fun _ => none) (fun _ => none) (.str "X")
    (by intro n _; exact ⟨rfl, rfl⟩)

/-- C7 counterexample: the legacy `django_secrets.setting` checks
`if value:` on the attribute, so a present-but-falsy value (the empty
string) is NOT returned — the search falls through to the environment and
returns the environment value instead, refuting the claim that in the
resolver only `None` continues the search. -/
theorem claim_C7_counterexample :
    Init.setting ["KEY"] none (fun _ => some (.str "")) true false
        (fun _ => some "env-value")
      = .ok (some (.str "env-value")) := by
  rfl

/-- C7 (amended): in `django_secrets.utils.setting` — the resolver used by
the AWS backend and exercised by the test suite — a present attribute value
is returned even when it is falsy, and only `None` / absence moves the
search to the next candidate name; the legacy `django_secrets.setting` and
`aws_secrets.lookup_env` instead skip falsy values. -/
theorem claim_C7_falsy_counts_as_found (names1 names2 : List String) (name : String)
    (module : SettingsModule) (v : PyVal)
    (h1 : ∀ n ∈ names1, module n = none) (h2 : module name = some v) :
    ∀ (env : Env) (default : Option PyVal) (le re : Bool),
      Utils.setting (names1 ++ name :: names2) default module le re env
        = .ok (some v) := by
  intro env default le re
  have hs : Utils.resolve_settings (names1 ++ name :: names2) module = some v := by
    rw [Utils.resolve_settings_skip names1 _ module h1]
    simp [Utils.resolve_settings, h2]
  simp [Utils.setting, hs]

/-- Witness for C7: the empty string (falsy, non-None) stored under the
second candidate name is returned, ignoring both the environment value and
the default. -/
theorem claim_C7_witness :
    Utils.setting ["N1", "N2"] (some (.str "default"))
      (fun n => if n = "N2" then some (.str "") else none)
      true false (fun _ => some "env-noise") = .ok (some (.str "")) :=
  claim_C7_falsy_counts_as_found ["N1"] [] "N2"
    (fun n => if n = "N2" then some (.str "") else none) (.str "")
    (by intro n hn; simp at hn; subst hn; decide) (by decide)
    (fun _ => some "env-noise") (some (.str "default")) true false

/-! Helper lemmas about the descent loop. -/

theorem descend_foldlM (payload : JSON) (segs : List String) :
    descend payload segs = List.foldlM pyIndex payload segs := by
  induction segs generalizing payload with
  | nil => rfl
  | cons k rest ih =>
    simp only [descend, List.foldlM_cons]
    cases h : pyIndex payload k with
    | ok v => simp only [h]; exact ih v
    | error e => simp only [h]; rfl

theorem descend_append (payload : JSON) (l₁ l₂ : List String) :
    descend payload (l₁ ++ l₂)
      = match descend payload l₁ with
        | .ok v => descend v l₂
        | .error e => .error e := by
  induction l₁ generalizing payload with
  | nil => rfl
  | cons k rest ih =>
    rw [List.cons_append]
    simp only [descend]
    cases h : pyIndex payload k with
    | ok v => exact ih v
    | error e => rfl

theorem pyIndex_error_not_domain (j : JSON) (k : String) (e : PyError)
    (h : pyIndex j k = .error e) : e.isDomain = false := by
  cases j with
  | obj m =>
    simp only [pyIndex] at h
    cases hm : alookup m k with
    | some v => rw [hm] at h; exact absurd h (by simp)
    | none => rw [hm] at h; injection h with h'; rw [← h']; rfl
  | null => injection h with h'; rw [← h']; rfl
  | bool b => injection h with h'; rw [← h']; rfl
  | num n => injection h with h'; rw [← h']; rfl
  | str s => injection h with h'; rw [← h']; rfl
  | arr l => injection h with h'; rw [← h']; rfl

theorem descend_error_not_domain (payload : JSON) (segs : List String) (e : PyError)
    (h : descend payload segs = .error e) : e.isDomain = false := by
  induction segs generalizing payload with
  | nil => exact absurd h (by simp [descend])
  | cons k rest ih =>
    simp only [descend] at h
    cases hk : pyIndex payload k with
    | ok v => rw [hk] at h; exact ih v h
    | error e' =>
      rw [hk] at h
      injection h with h'
      rw [← h']
      exact pyIndex_error_not_domain payload k e' hk

/-- C1: the first `get_secret_section` call for a secret name not in the
cache makes exactly one store call and stores the parsed payload under that
name; calling again immediately makes no store call, leaves the cache
unchanged and returns the same result; and in general any call that finds
the name cached makes no store call and answers from the cached payload. -/
theorem claim_C1_fetch_cached_once (fetch : String → JSON) (boto : Backend.BotoChain)
    (module : SettingsModule) (env : Env) (st : Cache) (name : String)
    (sect : Option String) (c : Init.Credentials)
    (hmiss : alookup st name = none)
    (hclient : Backend.get_client boto module env = .ok c) :
    Backend.get_secret_section fetch boto module env st name sect
      = ((name, fetch name) :: st, 1, Backend.narrow (fetch name) sect) ∧
    alookup ((name, fetch name) :: st) name = some (fetch name) ∧
    Backend.get_secret_section fetch boto module env ((name, fetch name) :: st) name sect
      = ((name, fetch name) :: st, 0, Backend.narrow (fetch name) sect) ∧
    (∀ (st' : Cache) (payload : JSON), alookup st' name = some payload →
      Backend.get_secret_section fetch boto module env st' name sect
        = (st', 0, Backend.narrow payload sect)) ∧
    (∀ (s : String) (c' : Init.Credentials),
      Init.get_client module env = .ok c' →
      Init.get_secrets_section fetch module env st name s
        = ((name, fetch name) :: st, 1, descend (fetch name) (pySplit s ':')) ∧
      Init.get_secrets_section fetch module env ((name, fetch name) :: st) name s
        = ((name, fetch name) :: st, 0, descend (fetch name) (pySplit s ':'))) := by
  refine ⟨?_, ?_, ?_, ?_, ?_⟩
  · simp [Backend.get_secret_section, hmiss, hclient]
  · simp [alookup]
  · simp [Backend.get_secret_section, alookup]
  · intro st' payload hhit
    simp [Backend.get_secret_section, hhit]
  · intro s c' hclient'
    constructor
    · simp [Init.get_secrets_section, hmiss, hclient']
    · simp [Init.get_secrets_section, alookup]

/-- Witness for C1: with an access-key pair in the settings module and a
boto chain that accepts it, two successive calls on an empty cache make one
store call and then zero. -/
theorem claim_C1_witness :
    Backend.get_secret_section (fun _ => JSON.obj [("k", JSON.num 7)]) (fun _ => true)
        (fun n => if n = "AWS_ACCESS_KEY_ID" then some (.str "AK")
                  else if n = "AWS_SECRET_ACCESS_KEY" then some (.str "SK") else none)
        (fun _ => none) [] "myid" none
      = ([("myid", JSON.obj [("k", JSON.num 7)])], 1,
          Backend.narrow (JSON.obj [("k", JSON.num 7)]) none) ∧
    alookup [("myid", JSON.obj [("k", JSON.num 7)])] "myid"
      = some (JSON.obj [("k", JSON.num 7)]) ∧
    Backend.get_secret_section (fun _ => JSON.obj [("k", JSON.num 7)]) (fun _ => true)
        (fun n => if n = "AWS_ACCESS_KEY_ID" then some (.str "AK")
                  else if n = "AWS_SECRET_ACCESS_KEY" then some (.str "SK") else none)
        (fun _ => none) [("myid", JSON.obj [("k", JSON.num 7)])] "myid" none
      = ([("myid", JSON.obj [("k", JSON.num 7)])], 0,
          Backend.narrow (JSON.obj [("k", JSON.num 7)]) none) :=
  have h := claim_C1_fetch_cached_once (fun _ => JSON.obj [("k", JSON.num 7)]) (fun _ => true)
    (fun n => if n = "AWS_ACCESS_KEY_ID" then some (.str "AK")
              else if n = "AWS_SECRET_ACCESS_KEY" then some (.str "SK") else none)
    (fun _ => none) [] "myid" none
    ⟨some (.str "AK"), some (.str "SK"), none, none⟩ rfl rfl
  ⟨h.1, h.2.1, h.2.2.1⟩

/-- C2: on a cached payload and a non-empty section path,
`get_secret_section` makes no store call and returns the result of
splitting the path on `:` and sequentially indexing into the payload with
each segment in order (the descent loop equals the monadic fold of the
single-step indexing over the segment list). -/
theorem claim_C2_split_and_descend (fetch : String → JSON) (boto : Backend.BotoChain)
    (module : SettingsModule) (env : Env) (st : Cache) (name : String)
    (payload : JSON) (s : String)
    (hcached : alookup st name = some payload) (hs : s ≠ "") :
    Backend.get_secret_section fetch boto module env st name (some s)
      = (st, 0, descend payload (pySplit s ':')) ∧
    descend payload (pySplit s ':') = List.foldlM pyIndex payload (pySplit s ':') := by
  constructor
  · simp [Backend.get_secret_section, hcached, Backend.narrow, hs]
  · exact descend_foldlM payload (pySplit s ':')

/-- Witness for C2: the claim's concrete example, with the spelled-out
conclusion that the section "a:b" of the payload a-b-c-1 is the object
c-1. -/
theorem claim_C2_witness :
    Backend.get_secret_section (fun _ => JSON.null) (fun _ => true) (fun _ => none)
        (fun _ => none)
        [("id", JSON.obj [("a", JSON.obj [("b", JSON.obj [("c", JSON.num 1)])])])]
        "id" (some "a:b")
      = ([("id", JSON.obj [("a", JSON.obj [("b", JSON.obj [("c", JSON.num 1)])])])],
          0, .ok (JSON.obj [("c", JSON.num 1)])) := by
  have h := claim_C2_split_and_descend (fun _ => JSON.null) (fun _ => true) (fun _ => none)
    (fun _ => none)
    [("id", JSON.obj [("a", JSON.obj [("b", JSON.obj [("c", JSON.num 1)])])])]
    "id" (JSON.obj [("a", JSON.obj [("b", JSON.obj [("c", JSON.num 1)])])]) "a:b"
    rfl (by decide)
  rw [h.1]
  rfl

/-- C4: a section path that reaches a mapping level lacking the next
segment makes the descent fail with the plain Python `KeyError` for that
segment; more generally no error produced by the descent loop is one of the
repository's domain-specific exception classes; and on the claim's concrete
example the path "a:z" fails with `KeyError("z")`. -/
theorem claim_C4_lookup_error_plain :
    (∀ (payload : JSON) (pre post : List String) (k : String)
       (m : List (String × JSON)),
      descend payload pre = .ok (.obj m) → alookup m k = none →
      descend payload (pre ++ k :: post) = .error (.keyError k)) ∧
    (∀ (payload : JSON) (segs : List String) (e : PyError),
      descend payload segs = .error e → e.isDomain = false) ∧
    Backend.get_secret_section (fun _ => JSON.null) (fun _ => true) (fun _ => none)
        (fun _ => none)
        [("id", JSON.obj [("a", JSON.obj [("b", JSON.obj [("c", JSON.num 1)])])])]
        "id" (some "a:z")
      = ([("id", JSON.obj [("a", JSON.obj [("b", JSON.obj [("c", JSON.num 1)])])])],
          0, .error (.keyError "z")) := by
  refine ⟨?_, descend_error_not_domain, ?_⟩
  · intro payload pre post k m hpre hk
    rw [descend_append payload pre (k :: post), hpre]
    simp [descend, pyIndex, hk]
  · rfl

/-- Witness for C4: the general mapping-level statement applied at the
claim's concrete payload with prefix ["a"] and missing segment "z". -/
theorem claim_C4_witness :
    descend (JSON.obj [("a", JSON.obj [("b", JSON.obj [("c", JSON.num 1)])])])
        (["a"] ++ "z" :: [])
      = .error (.keyError "z") :=
  claim_C4_lookup_error_plain.1
    (JSON.obj [("a", JSON.obj [("b", JSON.obj [("c", JSON.num 1)])])])
    ["a"] [] "z" [("b", JSON.obj [("c", JSON.num 1)])] rfl rfl

/-- C3 counterexample: the legacy `Secrets.get_secrets_section` of
`django_secrets/__init__.py` splits the empty section string into `[""]`
and indexes the cached payload with the empty key, so an empty section
path raises `KeyError('')` instead of returning the whole structure. -/
theorem claim_C3_counterexample :
    Init.get_secrets_section (fun _ => JSON.null) (fun _ => none) (fun _ => none)
        [("id", JSON.obj [("a", JSON.num 1)])] "id" ""
      = ([("id", JSON.obj [("a", JSON.num 1)])], 0, .error (.keyError "")) := by
  rfl

/-- C3 (amended): in the backend `get_secret_section` an absent (`None`) or
empty section path returns the entire cached structure unchanged without a
store call, and the `aws_secrets` `load_secrets` narrowing step likewise
returns the whole parsed payload for an absent or empty section setting;
only the legacy `Secrets.get_secrets_section` deviates, splitting `""` into
`[""]` and raising a `KeyError`. -/
theorem claim_C3_empty_section_whole_payload (fetch : String → JSON)
    (boto : Backend.BotoChain) (module : SettingsModule) (env : Env)
    (st : Cache) (name : String) (payload : JSON)
    (hcached : alookup st name = some payload) :
    Backend.get_secret_section fetch boto module env st name none
      = (st, 0, .ok payload) ∧
    Backend.get_secret_section fetch boto module env st name (some "")
      = (st, 0, .ok payload) ∧
    (∀ secrets_obj : JSON,
      AwsSecrets.load_secrets_narrow secrets_obj none = .ok secrets_obj ∧
      AwsSecrets.load_secrets_narrow secrets_obj (some "") = .ok secrets_obj) := by
  refine ⟨?_, ?_, ?_⟩
  · simp [Backend.get_secret_section, hcached, Backend.narrow]
  · simp [Backend.get_secret_section, hcached, Backend.narrow]
  · intro secrets_obj
    exact ⟨rfl, rfl⟩

/-- Witness for the amended C3 at a concrete cached payload. -/
theorem claim_C3_witness :
    Backend.get_secret_section (fun _ => JSON.null) (fun _ => true) (fun _ => none)
        (fun _ => none) [("id", JSON.obj [("a", JSON.num 1)])] "id" none
      = ([("id", JSON.obj [("a", JSON.num 1)])], 0, .ok (JSON.obj [("a", JSON.num 1)])) ∧
    Backend.get_secret_section (fun _ => JSON.null) (fun _ => true) (fun _ => none)
        (fun _ => none) [("id", JSON.obj [("a", JSON.num 1)])] "id" (some "")
      = ([("id", JSON.obj [("a", JSON.num 1)])], 0, .ok (JSON.obj [("a", JSON.num 1)])) ∧
    AwsSecrets.load_secrets_narrow (JSON.obj [("a", JSON.num 1)]) none
      = .ok (JSON.obj [("a", JSON.num 1)]) ∧
    AwsSecrets.load_secrets_narrow (JSON.obj [("a", JSON.num 1)]) (some "")
      = .ok (JSON.obj [("a", JSON.num 1)]) :=
  have h := claim_C3_empty_section_whole_payload (fun _ => JSON.null) (fun _ => true)
    (fun _ => none) (fun _ => none) [("id", JSON.obj [("a", JSON.num 1)])] "id"
    (JSON.obj [("a", JSON.num 1)]) rfl
  ⟨h.1, h.2.1, (h.2.2 (JSON.obj [("a", JSON.num 1)])).1,
    (h.2.2 (JSON.obj [("a", JSON.num 1)])).2⟩

/-- C8: in the legacy `Secrets.get_client`, when neither a truthy access-key
pair nor a truthy profile is resolvable from the settings module or the
environment, the call raises `CredentialsNotExists`, and a cache-missing
`get_secrets_section` therefore fails with that error after zero store
calls (the error precedes any secret fetch); when a pair or a profile is
resolvable no such error is raised; and in the backend `get_client` any
error likewise surfaces from a cache-missing `get_secret_section` with
zero store calls. -/
theorem claim_C8_credentials_eager (module : SettingsModule) (env : Env) :
    ((truthyOpt (Init.resolve Init.access_key_names module env)
        && truthyOpt (Init.resolve Init.secret_key_names module env)) = false →
     truthyOpt (Init.resolve Init.profile_names module env) = false →
     Init.get_client module env = .error .credentialsNotExists ∧
     (∀ (fetch : String → JSON) (st : Cache) (name : String) (s : String),
       alookup st name = none →
       Init.get_secrets_section fetch module env st name s
         = (st, 0, .error .credentialsNotExists))) ∧
    (((truthyOpt (Init.resolve Init.access_key_names module env)
        && truthyOpt (Init.resolve Init.secret_key_names module env)) = true ∨
      truthyOpt (Init.resolve Init.profile_names module env) = true) →
     ∃ c : Init.Credentials, Init.get_client module env = .ok c) ∧
    (∀ (boto : Backend.BotoChain) (module' : SettingsModule) (env' : Env)
       (e : PyError) (fetch : String → JSON) (st : Cache) (name : String)
       (sect : Option String),
       Backend.get_client boto module' env' = .error e →
       alookup st name = none →
       Backend.get_secret_section fetch boto module' env' st name sect
         = (st, 0, .error e)) := by
  refine ⟨?_, ?_, ?_⟩
  · intro hak hp
    have hc : Init.get_client module env = .error .credentialsNotExists := by
      simp [Init.get_client, hak, hp]
    refine ⟨hc, ?_⟩
    intro fetch st name s hmiss
    simp [Init.get_secrets_section, hmiss, hc]
  · intro h
    rcases h with hak | hp
    · exact ⟨⟨Init.resolve Init.access_key_names module env,
              Init.resolve Init.secret_key_names module env, none,
              Init.resolve Init.region_name_names module env⟩,
        by simp [Init.get_client, hak]⟩
    · by_cases hak : (truthyOpt (Init.resolve Init.access_key_names module env)
        && truthyOpt (Init.resolve Init.secret_key_names module env)) = true
      · exact ⟨⟨Init.resolve Init.access_key_names module env,
                Init.resolve Init.secret_key_names module env, none,
                Init.resolve Init.region_name_names module env⟩,
          by simp [Init.get_client, hak]⟩
      · rw [Bool.not_eq_true] at hak
        exact ⟨⟨none, none, Init.resolve Init.profile_names module env,
                Init.resolve Init.region_name_names module env⟩,
          by simp [Init.get_client, hak, hp]⟩
  · intro boto module' env' e fetch st name sect herr hmiss
    simp [Backend.get_secret_section, hmiss, herr]

/-- Witness for C8: with empty settings and environment nothing is
resolvable, so the legacy client construction and a fresh cache-missing
section fetch both fail with `CredentialsNotExists` and zero store
calls. -/
theorem claim_C8_witness :
    Init.get_client (fun _ => none) (fun _ => none) = .error .credentialsNotExists ∧
    Init.get_secrets_section (fun _ => JSON.null) (fun _ => none) (fun _ => none)
        [] "id" "" = ([], 0, .error .credentialsNotExists) :=
  have h := (claim_C8_credentials_eager (fun _ => none) (fun _ => none)).1
    (by decide) (by decide)
  ⟨h.1, h.2 (fun _ => JSON.null) [] "id" "" rfl⟩

/-- C9: on a resolved section that is a mapping, `get` returns the stored
value for a present key and the supplied default for an absent key, while
`[]`-style access returns the stored value for a present key and raises
`KeyError` for an absent key. -/
theorem claim_C9_get_default_vs_getitem (m : List (String × JSON)) (key : String)
    (d : JSON) :
    (alookup m key = none →
      Backend.get (.obj m) key d = .ok d ∧
      Backend.getitem (.obj m) key = .error (.keyError key)) ∧
    (∀ v : JSON, alookup m key = some v →
      Backend.get (.obj m) key d = .ok v ∧
      Backend.getitem (.obj m) key = .ok v) := by
  constructor
  · intro h
    exact ⟨by simp [Backend.get, h], by simp [Backend.getitem, pyIndex, h]⟩
  · intro v h
    exact ⟨by simp [Backend.get, h], by simp [Backend.getitem, pyIndex, h]⟩

/-- Witness for C9: on the section x-1, the missing key returns the default
42 through `get` and raises `KeyError` through `[]`. -/
theorem claim_C9_witness :
    Backend.get (.obj [("x", JSON.num 1)]) "missing" (JSON.num 42)
      = .ok (JSON.num 42) ∧
    Backend.getitem (.obj [("x", JSON.num 1)]) "missing"
      = .error (.keyError "missing") :=
  (claim_C9_get_default_vs_getitem [("x", JSON.num 1)] "missing" (JSON.num 42)).1 rfl

/-- C10: the `Secrets` constructor resolves the module named by the
`DJANGO_SETTINGS_MODULE` environment variable; when that module already has
a `SECRET_KEY` attribute the import system is left pointwise unchanged, and
when it lacks one the constructor rebinds exactly that module to a copy
with `SECRET_KEY = 'temp_secret_key'` injected and every other attribute
preserved. -/
theorem claim_C10_constructor_mutates_module (env : Env)
    (modules : String → Option Init.ModuleAttrs) (name : String)
    (mod : Init.ModuleAttrs)
    (henv : env "DJANGO_SETTINGS_MODULE" = some name)
    (hmod : modules name = some mod) :
    (Init.hasattr mod "SECRET_KEY" = true →
      Init.Secrets_init env modules
        = .ok ((fun n => if n = name then some mod else modules n), []) ∧
      (∀ n, (if n = name then some mod else modules n) = modules n)) ∧
    (Init.hasattr mod "SECRET_KEY" = false →
      Init.Secrets_init env modules
        = .ok ((fun n => if n = name
            then some (Init.setattr mod "SECRET_KEY" (.str "temp_secret_key"))
            else modules n), []) ∧
      alookup (Init.setattr mod "SECRET_KEY" (.str "temp_secret_key")) "SECRET_KEY"
        = some (.str "temp_secret_key") ∧
      (∀ k, k ≠ "SECRET_KEY" →
        alookup (Init.setattr mod "SECRET_KEY" (.str "temp_secret_key")) k
          = alookup mod k)) := by
  constructor
  · intro hhas
    constructor
    · simp [Init.Secrets_init, henv, hmod, hhas]
    · intro n
      by_cases hn : n = name
      · simp [hn, hmod]
      · simp [hn]
  · intro hhas
    refine ⟨?_, ?_, ?_⟩
    · simp [Init.Secrets_init, henv, hmod, hhas]
    · simp [Init.setattr, alookup]
    · intro k hk
      simp [Init.setattr, alookup, Ne.symm hk]

/-- Witness for C10: a settings module holding only a DEBUG attribute gets
`SECRET_KEY = 'temp_secret_key'` injected by the constructor. -/
theorem claim_C10_witness :
    Init.Secrets_init
        (fun n => if n = "DJANGO_SETTINGS_MODULE" then some "config.settings" else none)
        (fun n => if n = "config.settings" then some [("DEBUG", PyVal.int 1)] else none)
      = .ok ((fun n => if n = "config.settings"
          then some (Init.setattr [("DEBUG", PyVal.int 1)] "SECRET_KEY"
            (.str "temp_secret_key"))
          else (fun n => if n = "config.settings"
            then some [("DEBUG", PyVal.int 1)] else none) n), []) ∧
    alookup (Init.setattr [("DEBUG", PyVal.int 1)] "SECRET_KEY"
        (.str "temp_secret_key")) "SECRET_KEY"
      = some (.str "temp_secret_key") :=
  have h := (claim_C10_constructor_mutates_module
    (fun n => if n = "DJANGO_SETTINGS_MODULE" then some "config.settings" else none)
    (fun n => if n = "config.settings" then some [("DEBUG", PyVal.int 1)] else none)
    "config.settings" [("DEBUG", PyVal.int 1)] rfl rfl).2 (by decide)
  ⟨h.1, h.2.1⟩
